import Mathlib

/-!
Shallow embedding of the desktop GUI application shell of Electron-Cash-SLP
(`gui/qt/__init__.py`, class `ElectrumGui`).

The pure data and control flow of the shell methods are translated into
total Lean functions.  External collaborators (the daemon, the install
wizard, the configuration store, path standardization) are modelled as an
explicit environment of oracles, and user-visible side effects (dialogs,
tray-menu rebuilds, window focus changes, quit requests) are modelled as
an event list returned alongside the new state.
-/

namespace ECGui

/-- A wallet as seen by the GUI shell: its storage path
(`wallet.storage.path`) and whether any of its keystores is
hardware-backed (`isinstance(k, Hardware_KeyStore)`). -/
structure Wallet where
  path : String
  hasHardwareKeystore : Bool
  deriving DecidableEq

/-- An open wallet window (`ElectrumWindow`).  The numeric id stands for
object identity so distinct windows for equal wallets stay distinguishable. -/
structure Window where
  wid : Nat
  wallet : Wallet
  deriving DecidableEq

/-- Observable side effects performed by the shell methods. -/
inductive Event where
  | openedLastWallet
  | loadWalletCalled (path : String)
  | broughtToTop (wid : Nat)
  | stopWalletAttempted (path : String)
  | hwWarningShown (path : String)
  | wizardInvoked (path : String)
  | errorDialogShown (msg : String)
  | windowCreated (wid : Nat)
  | rebuiltTrayMenu
  | ranHookNewWindow
  | ranHookCloseWindow
  | gcScheduled
  | saveLastWallet (path : String)
  | quitRequested
  | payToURI (wid : Nat) (uri : String)
  deriving DecidableEq

/-- Predicate matching error-dialog events. -/
def Event.isErrorDialog : Event → Bool
  | .errorDialogShown _ => true
  | _ => false

/-- Predicate matching wizard-invocation events. -/
def Event.isWizardInvoked : Event → Bool
  | .wizardInvoked _ => true
  | _ => false

/-- Predicate matching window-creation events. -/
def Event.isWindowCreated : Event → Bool
  | .windowCreated _ => true
  | _ => false

/-- Predicate matching save-last-wallet events. -/
def Event.isSaveLastWallet : Event → Bool
  | .saveLastWallet _ => true
  | _ => false

/-- Predicate matching application-quit requests. -/
def Event.isQuitRequest : Event → Bool
  | .quitRequested => true
  | _ => false

/-- Outcome of `daemon.load_wallet(path, None)`: a wallet, `None`, or a
raised exception. -/
inductive LoadResult where
  | loaded (w : Wallet)
  | noWallet
  | raised (msg : String)
  deriving DecidableEq

/-- Outcome of `wizard.run_and_get_wallet()`: a wallet, `None`, a
`UserCancelled` or `GoBack` signal, or some other raised exception. -/
inductive WizardResult where
  | created (w : Wallet)
  | noWallet
  | userCancelled
  | goBack
  | raised (msg : String)
  deriving DecidableEq

/-- Environment of external collaborators used by the window-open flow:
`standardize_path`, `daemon.load_wallet`, `get_new_wallet_path`, the
install wizard (keyed by the storage path it is given), the configuration
store's wallet path after `open_last_wallet`, the configured payment `url`,
and whether `daemon.stop_wallet` succeeds (its outcome is swallowed by the
code, so nothing may depend on it). -/
structure Env where
  standardize : String → String
  loadWallet : String → LoadResult
  newWalletPath : String
  wizard : String → WizardResult
  lastWalletPath : String
  url : Option String
  stopWalletOk : String → Bool

/-- Mutable shell state relevant to the window registry: the ordered list
`self.windows` plus a counter providing fresh window identities. -/
structure GuiState where
  windows : List Window
  nextWid : Nat
  deriving DecidableEq

/-! ### Update-check scheduler (`on_auto_update_timeout`,
`_start_auto_update_timer`, `_stop_auto_update_timer`,
`set_auto_update_check`) -/

/-- State of `self.update_checker_timer`: whether it is started, its
interval in milliseconds, and the `first_run` attribute stored on it. -/
structure UpdTimer where
  active : Bool
  interval : Nat
  firstRun : Bool
  deriving DecidableEq

/-- What a single firing of `on_auto_update_timeout` did. -/
inductive SchedEvent where
  | skippedOffline
  | checked
  | skippedRecent
  deriving DecidableEq

/-- `_start_auto_update_timer(first_run=...)`: records `first_run` on the
timer, picks 10 s for a first run and 3600 s otherwise, and starts the
timer with that interval. -/
def startAutoUpdateTimer (first_run : Bool) (t : UpdTimer) : UpdTimer :=
  { t with
    firstRun := first_run
    interval := if first_run then 10000 else 3600000
    active := true }

/-- `_stop_auto_update_timer()`: stops the timer; the interval and the
`first_run` attribute are left as they were. -/
def stopAutoUpdateTimer (t : UpdTimer) : UpdTimer :=
  { t with active := false }

/-- `on_auto_update_timeout()`: skip when `daemon.network` is absent,
otherwise check unless a manual check happened recently; afterwards, on the
first run, re-arm the timer with the hourly interval. -/
def onAutoUpdateTimeout (net recent : Bool) (t : UpdTimer) : UpdTimer × SchedEvent :=
  let ev := if !net then SchedEvent.skippedOffline
            else if !recent then SchedEvent.checked
            else SchedEvent.skippedRecent
  (if t.firstRun then startAutoUpdateTimer false t else t, ev)

/-- Timed trace of a freshly started scheduler: entry `n` is the pair of
the absolute time (ms) at which the timer last became armed or fired, and
the timer state at that moment.  At step 0 the timer is started with
`first_run=True` (as in `__init__`); the repeating timer then fires every
`interval` ms, each firing running `on_auto_update_timeout` with the
online/recent-check oracles sampled at that firing. -/
def schedTrace (net recent : Nat → Bool) : Nat → Nat × UpdTimer
  | 0 => (0, startAutoUpdateTimer true ⟨false, 0, false⟩)
  | n + 1 =>
    let p := schedTrace net recent n
    (p.1 + p.2.interval, (onAutoUpdateTimeout (net n) (recent n) p.2).1)

/-- Absolute time (ms) of the `n`-th firing of the update-check timer. -/
def fireTime (net recent : Nat → Bool) (n : Nat) : Nat :=
  (schedTrace net recent (n + 1)).1

/-- What the `n`-th firing of the update-check timer did. -/
def fireEvent (net recent : Nat → Bool) (n : Nat) : SchedEvent :=
  (onAutoUpdateTimeout (net n) (recent n) (schedTrace net recent n).2).2

/-- Whether the `n`-th firing performed an actual update check. -/
def checkAt (net recent : Nat → Bool) (n : Nat) : Bool :=
  fireEvent net recent n == SchedEvent.checked

/-- Configuration flag `auto_update_check` together with the timer it
controls. -/
structure SchedulerConfigState where
  autoUpdateCheck : Bool
  timer : UpdTimer
  deriving DecidableEq

/-- `set_auto_update_check(b)`: when the flag actually changes, persist it
and start (with the default `first_run=False`) or stop the timer. -/
def set_auto_update_check (b : Bool) (s : SchedulerConfigState) : SchedulerConfigState :=
  if s.autoUpdateCheck ≠ b then
    { autoUpdateCheck := b
      timer := if b then startAutoUpdateTimer false s.timer else stopAutoUpdateTimer s.timer }
  else s

/-! ### Tray icon toggling (`toggle_tray_icon`, `tray_icon`) -/

/-- The in-memory `self.dark_icon` flag, the persisted `dark_icon`
configuration key, and which icon asset the tray currently shows. -/
structure TrayState where
  darkIcon : Bool
  configDarkIcon : Bool
  trayIconDark : Bool
  deriving DecidableEq

/-- `toggle_tray_icon()`: flips `self.dark_icon`, persists it via
`config.set_key("dark_icon", ...)`, and re-applies `tray_icon()`. -/
def toggle_tray_icon (s : TrayState) : TrayState :=
  let d := !s.darkIcon
  { darkIcon := d, configDarkIcon := d, trayIconDark := d }

/-! ### Theme selection (`set_dark_theme_if_needed`) -/

/-- Outcome of determining `qdarkstyle.__version__` via
`version.normalize_version`: a version, a failure of one of the exception
kinds enumerated by the inner handler (`ValueError`, `IndexError`,
`TypeError`, `NameError`, `AttributeError`), or a failure of any other
kind. -/
inductive NormVersionResult where
  | determined (v : List Nat)
  | failedCaught
  | failedUncaught
  deriving DecidableEq

/-- Oracles for `set_dark_theme_if_needed`: whether importing `qdarkstyle`
and applying its stylesheet succeeds, and the outcome of determining its
version. -/
structure ThemeEnv where
  qdarkstyleLoadOk : Bool
  normVersion : NormVersionResult
  deriving DecidableEq

/-- Observable outcome of `set_dark_theme_if_needed`: the effective
`use_dark_theme` flag and `darkstyle_ver` value, the arguments passed to
`style_patcher.patch`, and the `force_dark` argument of the final
`ColorScheme.update_from_widget` call. -/
structure ThemeResult where
  effectiveDark : Bool
  darkstyleVer : Option (List Nat)
  patcherCalled : Bool
  patcherDark : Bool
  patcherVer : Option (List Nat)
  colorSchemeRecomputed : Bool
  colorForceDark : Bool
  deriving DecidableEq

/-- `set_dark_theme_if_needed()`: request the dark theme exactly when the
`qt_gui_color_theme` key is `"dark"`; fall back on a stylesheet load
failure or an uncaught version failure; always invoke the style patcher and
recompute the color scheme from the effective style. -/
def set_dark_theme_if_needed (theme_cfg : String) (env : ThemeEnv) : ThemeResult :=
  let requested := theme_cfg == "dark"
  let dv : Bool × Option (List Nat) :=
    if requested then
      if env.qdarkstyleLoadOk then
        match env.normVersion with
        | .determined v => (true, some v)
        | .failedCaught => (true, none)
        | .failedUncaught => (false, none)
      else (false, none)
    else (false, none)
  { effectiveDark := dv.1
    darkstyleVer := dv.2
    patcherCalled := true
    patcherDark := dv.1
    patcherVer := dv.2
    colorSchemeRecomputed := true
    colorForceDark := dv.1 }

/-! ### Window-open flow (`start_new_window` and helpers) -/

/-- The two side effects of `_slp_warn_if_wallet_not_compat` on a
hardware wallet: attempt `daemon.stop_wallet` (its failure is swallowed)
and show the blocking warning. -/
def slpWarnEvents (w : Wallet) : List Event :=
  [Event.stopWalletAttempted w.path, Event.hwWarningShown w.path]

/-- `_slp_warn_if_wallet_not_compat(wallet, stop=True)`: on a wallet with
a hardware keystore, stop it daemon-side and warn, returning `True`;
otherwise do nothing and return `False`. -/
def slp_warn_if_wallet_not_compat (w : Wallet) : Bool × List Event :=
  if w.hasHardwareKeystore then (true, slpWarnEvents w) else (false, [])

/-- `create_window_for_wallet(wallet)`: build an `ElectrumWindow`, append
it to `self.windows`, rebuild the tray menu and fire the `on_new_window`
hook. -/
def create_window_for_wallet (s : GuiState) (w : Wallet) : GuiState × Window × List Event :=
  let win : Window := ⟨s.nextWid, w⟩
  (⟨s.windows ++ [win], s.nextWid + 1⟩, win,
   [Event.windowCreated win.wid, Event.rebuiltTrayMenu, Event.ranHookNewWindow])

/-- Trailing actions of `start_new_window` on the window it returns:
hand over the payment URI when one was supplied, then bring the window to
the foreground and activate it. -/
def finishEvents (w : Window) (uri : Option String) : List Event :=
  (match uri with
   | some u => [Event.payToURI w.wid u]
   | none => []) ++ [Event.broughtToTop w.wid]

/-- The `if not wallet:` arm of `start_new_window`: run the install wizard
on a `WalletStorage` at path `p`.  `UserCancelled`, `GoBack` and a `None`
wallet all end the flow with no window; a created wallet is started,
registered with the daemon, and then rejected (stop + warning) if it has a
hardware keystore, otherwise a window is created for it; any other wizard
exception propagates to the outer handler which shows the error dialog. -/
def runWizardFlow (env : Env) (s : GuiState) (p : String) (uri : Option String) :
    GuiState × Option Window × List Event :=
  match env.wizard p with
  | .created w =>
    if w.hasHardwareKeystore then
      (s, none, [Event.wizardInvoked p] ++ slpWarnEvents w)
    else
      let r := create_window_for_wallet s w
      (r.1, some r.2.1, [Event.wizardInvoked p] ++ r.2.2 ++ finishEvents r.2.1 uri)
  | .noWallet => (s, none, [Event.wizardInvoked p])
  | .userCancelled => (s, none, [Event.wizardInvoked p])
  | .goBack => (s, none, [Event.wizardInvoked p])
  | .raised m =>
    (s, none, [Event.wizardInvoked p, Event.errorDialogShown ("Cannot load wallet:" ++ m)])

/-- Body of `start_new_window` after the path has been substituted and
standardized (`path` empty stands for Python `None`/`''`): scan the open
windows for a match (any window when the path is empty) and bring it to
the foreground; otherwise load the wallet via the daemon.  A loaded
hardware wallet is stopped and warned about and then treated like a load
failure; a load failure is surfaced as an error dialog when other windows
are open and otherwise swallowed, substituting a fresh wallet path and
falling through to the install wizard; a `None` wallet falls through to
the wizard at the given path. -/
def open_path (env : Env) (s : GuiState) (path : String) (uri : Option String) :
    GuiState × Option Window × List Event :=
  match s.windows.find? (fun w => path == "" || w.wallet.path == path) with
  | some w => (s, some w, [Event.broughtToTop w.wid] ++ finishEvents w uri)
  | none =>
    match env.loadWallet path with
    | .loaded w =>
      if w.hasHardwareKeystore then
        if s.windows = [] then
          let r := runWizardFlow env s env.newWalletPath uri
          (r.1, r.2.1, [Event.loadWalletCalled path] ++ slpWarnEvents w ++ r.2.2)
        else
          (s, none,
           [Event.loadWalletCalled path] ++ slpWarnEvents w ++
             [Event.errorDialogShown "Cannot load wallet:RuntimeWarning"])
      else
        let r := create_window_for_wallet s w
        (r.1, some r.2.1, [Event.loadWalletCalled path] ++ r.2.2 ++ finishEvents r.2.1 uri)
    | .noWallet =>
      let r := runWizardFlow env s path uri
      (r.1, r.2.1, [Event.loadWalletCalled path] ++ r.2.2)
    | .raised m =>
      if s.windows = [] then
        let r := runWizardFlow env s env.newWalletPath uri
        (r.1, r.2.1, [Event.loadWalletCalled path] ++ r.2.2)
      else
        (s, none,
         [Event.loadWalletCalled path] ++
           [Event.errorDialogShown ("Cannot load wallet:" ++ m)])

/-- `start_new_window(path, uri)`.  An empty `path` stands for Python
`None`/`''`.  When `path` is empty and no window is open, the last-used
wallet path is substituted from the configuration; the path is then
standardized (an empty path stays empty, as `path and standardize_path(path)`
does) and handed to the window-scan/load/wizard body `open_path`. -/
def start_new_window (env : Env) (s : GuiState) (path0 : String) (uri : Option String) :
    GuiState × Option Window × List Event :=
  let p1 : String × List Event :=
    if path0 = "" ∧ s.windows = [] then (env.lastWalletPath, [Event.openedLastWallet])
    else (path0, [])
  let path := if p1.1 = "" then "" else env.standardize p1.1
  let r := open_path env s path uri
  (r.1, r.2.1, p1.2 ++ r.2.2)

/-- Number of open windows whose wallet storage path is `q`. -/
def countPath (q : String) (ws : List Window) : Nat :=
  ws.countP (fun w => w.wallet.path == q)

/-- `close_window(window)`: remove the window from the registry, rebuild
the tray menu, fire the `on_close_window` hook, schedule a GC pass; when
the registry became empty, persist the last wallet and (when the
application quits on last window closed, as `main` configures) request an
application quit. -/
def close_window (s : GuiState) (w : Window) (quitOnLastWindowClosed : Bool) :
    GuiState × List Event :=
  let ws := s.windows.erase w
  let evs := [Event.rebuiltTrayMenu, Event.ranHookCloseWindow, Event.gcScheduled]
  if ws = [] then
    (⟨ws, s.nextWid⟩,
     evs ++ [Event.saveLastWallet w.wallet.path] ++
       (if quitOnLastWindowClosed then [Event.quitRequested] else []))
  else (⟨ws, s.nextWid⟩, evs)

/-! ### Startup (`init_network`, `main`) -/

/-- Outcome of resolving the network bootstrap configuration. -/
inductive InitNetworkResult where
  | ok
  | userCancelled
  | goBack
  | raised (m : String)
  deriving DecidableEq

/-- `init_network()`: only when a network exists and the `auto_connect`
key is unset does the wizard's network setup run (and possibly raise);
otherwise nothing happens. -/
def init_network (hasNetwork autoConnectIsSet : Bool)
    (wizardNet : InitNetworkResult) : InitNetworkResult :=
  if hasNetwork && !autoConnectIsSet then wizardNet else .ok

/-- Observable outcome of `main()`: whether the 500 ms housekeeping timer
was started, whether the blocking event loop was entered, whether the
SIGINT handler was installed, the final window registry, and the events
performed. -/
structure MainOutcome where
  housekeepingStarted : Bool
  eventLoopEntered : Bool
  sigintHandlerInstalled : Bool
  finalState : GuiState
  events : List Event
  deriving DecidableEq

/-- `main()`: a cancelled or aborted `init_network` returns immediately;
otherwise the housekeeping timer starts, the last wallet is opened from
the configuration and a window started for it; if no window results,
`main` returns before installing the SIGINT handler and entering the event
loop. -/
def main (hasNetwork autoConnectIsSet : Bool) (wizardNet : InitNetworkResult)
    (env : Env) (s : GuiState) : MainOutcome :=
  match init_network hasNetwork autoConnectIsSet wizardNet with
  | .ok =>
    let r := start_new_window env s env.lastWalletPath env.url
    { housekeepingStarted := true
      eventLoopEntered := r.2.1.isSome
      sigintHandlerInstalled := r.2.1.isSome
      finalState := r.1
      events := Event.openedLastWallet :: r.2.2 }
  | _ =>
    { housekeepingStarted := false
      eventLoopEntered := false
      sigintHandlerInstalled := false
      finalState := s
      events := [] }

/-! ### Concrete witness data -/

/-- A daemon whose network is always up. -/
def alwaysOn : Nat → Bool := fun _ => true

/-- An update checker that never reports a recent manual check. -/
def neverRecent : Nat → Bool := fun _ => false

/-- A daemon that is always offline. -/
def offline : Nat → Bool := fun _ => false

/-- A well-behaved environment: paths are already standard, loading a path
yields the (software) wallet stored there, and the wizard is cancelled. -/
def envW : Env :=
  { standardize := fun p => p
    loadWallet := fun p => LoadResult.loaded ⟨p, false⟩
    newWalletPath := "/fresh"
    wizard := fun _ => WizardResult.userCancelled
    lastWalletPath := "/last"
    url := none
    stopWalletOk := fun _ => true }

/-- An environment whose daemon only ever loads hardware wallets. -/
def envHW : Env :=
  { standardize := fun p => p
    loadWallet := fun p => LoadResult.loaded ⟨p, true⟩
    newWalletPath := "/fresh"
    wizard := fun _ => WizardResult.userCancelled
    lastWalletPath := "/last"
    url := none
    stopWalletOk := fun _ => false }

/-- An environment whose daemon raises on every wallet load. -/
def envBad : Env :=
  { standardize := fun p => p
    loadWallet := fun _ => LoadResult.raised "corrupt"
    newWalletPath := "/fresh"
    wizard := fun _ => WizardResult.userCancelled
    lastWalletPath := "/last"
    url := none
    stopWalletOk := fun _ => true }

/-- A registry holding a single window for the wallet at `/w1`. -/
def sW : GuiState := ⟨[⟨0, ⟨"/w1", false⟩⟩], 1⟩

/-- The empty registry of a freshly started shell. -/
def s0 : GuiState := ⟨[], 0⟩

/-! ### Scheduler lemmas -/

/-- One unfolding step of the scheduler trace. -/
theorem schedTrace_succ (net recent : Nat → Bool) (n : Nat) :
    schedTrace net recent (n + 1) =
      ((schedTrace net recent n).1 + (schedTrace net recent n).2.interval,
       (onAutoUpdateTimeout (net n) (recent n) (schedTrace net recent n).2).1) := rfl

/-- After its first firing the update-check timer is armed with the hourly
interval and `first_run` cleared, and it stays that way. -/
theorem schedTrace_steady (net recent : Nat → Bool) :
    ∀ n, (schedTrace net recent (n + 1)).2 = ⟨true, 3600000, false⟩ := by
  intro n
  induction n with
  | zero =>
    simp [schedTrace, onAutoUpdateTimeout, startAutoUpdateTimer]
  | succ m ih =>
    rw [schedTrace_succ, ih]
    simp [onAutoUpdateTimeout]

/-- Closed form for the firing times of a freshly started scheduler. -/
theorem fireTime_closed (net recent : Nat → Bool) :
    ∀ n, fireTime net recent n = 10000 + n * 3600000 := by
  intro n
  induction n with
  | zero =>
    simp [fireTime, schedTrace, startAutoUpdateTimer]
  | succ m ih =>
    have h2 := schedTrace_steady net recent m
    simp only [fireTime] at ih ⊢
    rw [schedTrace_succ, h2, ih]
    ring

/-! ### Claim C5 (update-check scheduler cadence) -/

/-- Claim C5, counterexample: with the daemon offline at every firing, the
freshly started update-check timer is armed and its first timeout still
fires, executing `on_auto_update_timeout` (which merely skips the check);
so the scheduler does fire while offline, refuting the claim's final
conjunct that it never fires at all while offline. -/
theorem update_scheduler_fires_offline_cex :
    (schedTrace offline offline 0).2.active = true ∧
    offline 0 = false ∧
    fireEvent offline offline 0 = SchedEvent.skippedOffline := by
  decide

/-- Claim C5 (amended): a freshly started scheduler fires its first check
10 s (10000 ms) after start, consecutive firings — hence consecutive
checks — are 3600 s apart, and no firing performs an update check while
the daemon is offline (the timer may still fire offline, skipping the
check). -/
theorem update_scheduler_cadence (net recent : Nat → Bool) :
    fireTime net recent 0 = 10000 ∧
    (∀ n, fireTime net recent (n + 1) = fireTime net recent n + 3600000) ∧
    (∀ m n, m < n → checkAt net recent m = true → checkAt net recent n = true →
      fireTime net recent m + 3600000 ≤ fireTime net recent n) ∧
    (∀ n, checkAt net recent n = true → net n = true) := by
  refine ⟨?_, ?_, ?_, ?_⟩
  · simpa using fireTime_closed net recent 0
  · intro n
    rw [fireTime_closed net recent (n + 1), fireTime_closed net recent n]
    ring
  · intro m n hmn _ _
    rw [fireTime_closed net recent m, fireTime_closed net recent n]
    omega
  · intro n h
    cases hnet : net n with
    | true => rfl
    | false =>
      exfalso
      simp [checkAt, fireEvent, onAutoUpdateTimeout, hnet] at h

/-- Witness for C5: with the network up and no recent manual check, the
first firing is at 10 s, checks really happen, a later check is an hour
after an earlier one, and a performed check implies the network was up. -/
theorem update_scheduler_cadence_witness :
    fireTime alwaysOn neverRecent 0 = 10000 ∧
    fireTime alwaysOn neverRecent 0 + 3600000 ≤ fireTime alwaysOn neverRecent 1 ∧
    alwaysOn 1 = true :=
  ⟨(update_scheduler_cadence alwaysOn neverRecent).1,
   (update_scheduler_cadence alwaysOn neverRecent).2.2.1 0 1 (by decide) (by decide) (by decide),
   (update_scheduler_cadence alwaysOn neverRecent).2.2.2 1 (by decide)⟩

/-! ### Claim C6 (disable/re-enable of the scheduler) -/

/-- Claim C6, counterexample: a scheduler in its FIRST_RUN state
(`first_run = true`, short interval) that is disabled and then re-enabled
via `set_auto_update_check` ends with `first_run = false`, because
`_start_auto_update_timer()` is called with its default
`first_run = False`; the claim asserted the FIRST_RUN state survives. -/
theorem set_auto_update_check_resets_first_run_cex :
    (⟨true, ⟨true, 10000, true⟩⟩ : SchedulerConfigState).timer.firstRun = true ∧
    (set_auto_update_check true
      (set_auto_update_check false ⟨true, ⟨true, 10000, true⟩⟩)).timer.firstRun = false := by
  decide

/-- Claim C6 (amended): disabling the scheduler via
`set_auto_update_check false` stops the timer, and re-enabling it restarts
the timer unconditionally in the STEADY state: `first_run = false` with
the hourly interval, whatever the timer state before disabling. -/
theorem set_auto_update_check_reenable_steady (t : UpdTimer) :
    (set_auto_update_check false ⟨true, t⟩).timer.active = false ∧
    (set_auto_update_check false ⟨true, t⟩).autoUpdateCheck = false ∧
    (set_auto_update_check true (set_auto_update_check false ⟨true, t⟩)).timer.active = true ∧
    (set_auto_update_check true (set_auto_update_check false ⟨true, t⟩)).timer.firstRun = false ∧
    (set_auto_update_check true (set_auto_update_check false ⟨true, t⟩)).timer.interval = 3600000 ∧
    (set_auto_update_check true (set_auto_update_check false ⟨true, t⟩)).autoUpdateCheck = true := by
  simp [set_auto_update_check, stopAutoUpdateTimer, startAutoUpdateTimer]

/-! ### Claim C7 (tray icon toggling is an involution) -/

/-- Claim C7: starting from a state where the persisted `dark_icon` key
agrees with the in-memory flag (as `__init__` establishes), calling
`toggle_tray_icon` twice returns the in-memory flag, the persisted key and
the shown icon to their original values. -/
theorem toggle_tray_icon_involution (s : TrayState)
    (h : s.configDarkIcon = s.darkIcon) :
    (toggle_tray_icon (toggle_tray_icon s)).darkIcon = s.darkIcon ∧
    (toggle_tray_icon (toggle_tray_icon s)).configDarkIcon = s.configDarkIcon ∧
    (toggle_tray_icon (toggle_tray_icon s)).trayIconDark = s.darkIcon := by
  simp [toggle_tray_icon, h]

/-- Witness for C7 at a concrete synced tray state. -/
theorem toggle_tray_icon_involution_witness :
    (toggle_tray_icon (toggle_tray_icon ⟨true, true, true⟩)).darkIcon = true :=
  (toggle_tray_icon_involution ⟨true, true, true⟩ rfl).1

/-! ### Claim C9 (dark theme fallback) -/

/-- Claim C9, counterexample: when the dark stylesheet loads but the
qdarkstyle version cannot be determined (one of the caught exception
kinds), the dark theme is kept — with an unknown version — rather than
falling back to the default theme as the claim asserts. -/
theorem dark_theme_version_failure_keeps_dark_cex :
    (set_dark_theme_if_needed "dark" ⟨true, NormVersionResult.failedCaught⟩).effectiveDark = true ∧
    (set_dark_theme_if_needed "dark" ⟨true, NormVersionResult.failedCaught⟩).darkstyleVer = none := by
  decide

/-- Claim C9 (amended): `set_dark_theme_if_needed` never escapes with an
exception (it is total here); a failure to import or apply the dark
stylesheet, or an uncaught failure while determining its version, silently
falls back to the default theme, while a caught version-determination
failure keeps the dark theme with an unknown version; and in every case
the style patcher is invoked and the color palette recomputed with
`force_dark` equal to the effective style. -/
theorem set_dark_theme_fallback_and_recompute (theme_cfg : String) (env : ThemeEnv) :
    (set_dark_theme_if_needed theme_cfg env).patcherCalled = true ∧
    (set_dark_theme_if_needed theme_cfg env).colorSchemeRecomputed = true ∧
    (set_dark_theme_if_needed theme_cfg env).colorForceDark
      = (set_dark_theme_if_needed theme_cfg env).effectiveDark ∧
    (set_dark_theme_if_needed theme_cfg env).patcherDark
      = (set_dark_theme_if_needed theme_cfg env).effectiveDark ∧
    (set_dark_theme_if_needed theme_cfg env).patcherVer
      = (set_dark_theme_if_needed theme_cfg env).darkstyleVer ∧
    (env.qdarkstyleLoadOk = false →
      (set_dark_theme_if_needed theme_cfg env).effectiveDark = false) ∧
    (env.normVersion = NormVersionResult.failedUncaught →
      (set_dark_theme_if_needed theme_cfg env).effectiveDark = false) ∧
    (theme_cfg ≠ "dark" →
      (set_dark_theme_if_needed theme_cfg env).effectiveDark = false) ∧
    (theme_cfg = "dark" → env.qdarkstyleLoadOk = true →
      env.normVersion = NormVersionResult.failedCaught →
      (set_dark_theme_if_needed theme_cfg env).effectiveDark = true ∧
      (set_dark_theme_if_needed theme_cfg env).darkstyleVer = none) := by
  obtain ⟨lo, nv⟩ := env
  by_cases h : theme_cfg = "dark" <;>
    cases lo <;> cases nv <;>
      simp [set_dark_theme_if_needed, h]

/-- Witness for C9: a missing qdarkstyle with the dark theme requested
falls back to the default theme. -/
theorem set_dark_theme_fallback_and_recompute_witness :
    (set_dark_theme_if_needed "dark" ⟨false, NormVersionResult.failedCaught⟩).effectiveDark = false :=
  (set_dark_theme_fallback_and_recompute "dark" ⟨false, NormVersionResult.failedCaught⟩).2.2.2.2.2.1 rfl

/-! ### Window-flow helper lemmas -/

/-- `start_new_window` is `open_path` after the path substitution, possibly
prefixed by the open-last-wallet event. -/
theorem start_new_window_eq (env : Env) (s : GuiState) (path0 : String) (uri : Option String) :
    ∃ path extra, (extra = [] ∨ extra = [Event.openedLastWallet]) ∧
      start_new_window env s path0 uri =
        ((open_path env s path uri).1, (open_path env s path uri).2.1,
         extra ++ (open_path env s path uri).2.2) := by
  by_cases h : path0 = "" ∧ s.windows = []
  · refine ⟨if env.lastWalletPath = "" then "" else env.standardize env.lastWalletPath,
      [Event.openedLastWallet], Or.inr rfl, ?_⟩
    simp [start_new_window, h]
  · refine ⟨if path0 = "" then "" else env.standardize path0, [], Or.inl rfl, ?_⟩
    simp [start_new_window, h]

/-- With a non-empty path argument, `start_new_window` is exactly
`open_path` at the standardized path. -/
theorem start_new_window_nonempty_path (env : Env) (s : GuiState) (p : String)
    (uri : Option String) (hp : p ≠ "") :
    start_new_window env s p uri =
      ((open_path env s (env.standardize p) uri).1,
       (open_path env s (env.standardize p) uri).2.1,
       (open_path env s (env.standardize p) uri).2.2) := by
  simp [start_new_window, hp]

/-- With an empty path argument and at least one open window,
`start_new_window` is exactly `open_path` at the empty path. -/
theorem start_new_window_empty_path (env : Env) (s : GuiState)
    (uri : Option String) (hw : s.windows ≠ []) :
    start_new_window env s "" uri =
      ((open_path env s "" uri).1, (open_path env s "" uri).2.1,
       (open_path env s "" uri).2.2) := by
  simp [start_new_window, hw]

/-- The wizard-invocation event of `runWizardFlow` is always present. -/
theorem wizardInvoked_mem_runWizardFlow (env : Env) (s : GuiState) (p : String)
    (uri : Option String) :
    Event.wizardInvoked p ∈ (runWizardFlow env s p uri).2.2 := by
  cases hwz : env.wizard p with
  | created w =>
    cases hhw : w.hasHardwareKeystore <;>
      simp [runWizardFlow, hwz, hhw, create_window_for_wallet, finishEvents]
  | noWallet => simp [runWizardFlow, hwz]
  | userCancelled => simp [runWizardFlow, hwz]
  | goBack => simp [runWizardFlow, hwz]
  | raised m => simp [runWizardFlow, hwz]

/-- `runWizardFlow` only emits a wizard-invocation event for its own
storage path. -/
theorem wizardInvoked_mem_runWizardFlow_eq (env : Env) (s : GuiState) (p pw : String)
    (uri : Option String)
    (h : Event.wizardInvoked pw ∈ (runWizardFlow env s p uri).2.2) : pw = p := by
  cases hwz : env.wizard p with
  | created w =>
    cases hhw : w.hasHardwareKeystore <;> cases uri <;>
      simp [runWizardFlow, hwz, hhw, create_window_for_wallet, finishEvents,
        slpWarnEvents] at h <;> exact h
  | noWallet => simp [runWizardFlow, hwz] at h; exact h
  | userCancelled => simp [runWizardFlow, hwz] at h; exact h
  | goBack => simp [runWizardFlow, hwz] at h; exact h
  | raised m => simp [runWizardFlow, hwz] at h; exact h

/-- `runWizardFlow` never emits a load event. -/
theorem loadCalled_not_mem_runWizardFlow (env : Env) (s : GuiState) (p pl : String)
    (uri : Option String) :
    Event.loadWalletCalled pl ∉ (runWizardFlow env s p uri).2.2 := by
  cases hwz : env.wizard p with
  | created w =>
    cases hhw : w.hasHardwareKeystore <;> cases uri <;>
      simp [runWizardFlow, hwz, hhw, create_window_for_wallet, finishEvents,
        slpWarnEvents]
  | noWallet => simp [runWizardFlow, hwz]
  | userCancelled => simp [runWizardFlow, hwz]
  | goBack => simp [runWizardFlow, hwz]
  | raised m => simp [runWizardFlow, hwz]

/-- When the wizard produces a hardware wallet, `runWizardFlow` rejects it:
no window, unchanged state, stop attempted and warning shown. -/
theorem runWizardFlow_hw (env : Env) (s : GuiState) (p : String) (uri : Option String)
    (w : Wallet) (hwz : env.wizard p = WizardResult.created w)
    (hhw : w.hasHardwareKeystore = true) :
    runWizardFlow env s p uri =
      (s, none, [Event.wizardInvoked p] ++ slpWarnEvents w) := by
  simp [runWizardFlow, hwz, hhw]

/-- `runWizardFlow` shows no error dialog unless the wizard itself raised. -/
theorem runWizardFlow_no_dialog (env : Env) (s : GuiState) (p : String)
    (uri : Option String) (h : ∀ m', env.wizard p ≠ WizardResult.raised m') :
    (runWizardFlow env s p uri).2.2.countP Event.isErrorDialog = 0 := by
  cases hwz : env.wizard p with
  | created w =>
    cases hhw : w.hasHardwareKeystore <;> cases uri <;>
      simp [runWizardFlow, hwz, hhw, create_window_for_wallet, finishEvents,
        slpWarnEvents, Event.isErrorDialog, List.countP_cons, List.countP_append]
  | raised m => exact absurd hwz (h m)
  | noWallet => simp [runWizardFlow, hwz, Event.isErrorDialog, List.countP_cons]
  | userCancelled => simp [runWizardFlow, hwz, Event.isErrorDialog, List.countP_cons]
  | goBack => simp [runWizardFlow, hwz, Event.isErrorDialog, List.countP_cons]

/-- The registry after `runWizardFlow` is the old one, possibly extended by
one window, and any new window holds a software wallet. -/
theorem runWizardFlow_windows_shape (env : Env) (s : GuiState) (p : String)
    (uri : Option String) :
    (runWizardFlow env s p uri).1.windows = s.windows ∨
    ∃ win, (runWizardFlow env s p uri).1.windows = s.windows ++ [win] ∧
      win.wallet.hasHardwareKeystore = false := by
  cases hwz : env.wizard p with
  | created w =>
    cases hhw : w.hasHardwareKeystore with
    | true => left; simp [runWizardFlow, hwz, hhw]
    | false =>
      right
      exact ⟨⟨s.nextWid, w⟩, by simp [runWizardFlow, hwz, hhw, create_window_for_wallet], hhw⟩
  | noWallet => left; simp [runWizardFlow, hwz]
  | userCancelled => left; simp [runWizardFlow, hwz]
  | goBack => left; simp [runWizardFlow, hwz]
  | raised m => left; simp [runWizardFlow, hwz]

/-- The registry after `open_path` is the old one, possibly extended by one
window, and any new window holds a software wallet. -/
theorem open_path_windows_shape (env : Env) (s : GuiState) (path : String)
    (uri : Option String) :
    (open_path env s path uri).1.windows = s.windows ∨
    ∃ win, (open_path env s path uri).1.windows = s.windows ++ [win] ∧
      win.wallet.hasHardwareKeystore = false := by
  cases hfind : s.windows.find? (fun w => path == "" || w.wallet.path == path) with
  | some w => left; simp [open_path, hfind]
  | none =>
    cases hload : env.loadWallet path with
    | loaded w =>
      cases hhw : w.hasHardwareKeystore with
      | true =>
        by_cases hnil : s.windows = []
        · have := runWizardFlow_windows_shape env s env.newWalletPath uri
          simpa [open_path, hfind, hload, hhw, hnil] using this
        · left; simp [open_path, hfind, hload, hhw, hnil]
      | false =>
        right
        exact ⟨⟨s.nextWid, w⟩,
          by simp [open_path, hfind, hload, hhw, create_window_for_wallet], hhw⟩
    | noWallet =>
      have := runWizardFlow_windows_shape env s path uri
      simpa [open_path, hfind, hload] using this
    | raised m =>
      by_cases hnil : s.windows = []
      · have := runWizardFlow_windows_shape env s env.newWalletPath uri
        simpa [open_path, hfind, hload, hnil] using this
      · left; simp [open_path, hfind, hload, hnil]

/-- Windows with no matching path make the scan come up empty. -/
theorem find?_none_of_no_match (q : String) (hq : q ≠ "") (ws : List Window)
    (h : ∀ w ∈ ws, w.wallet.path ≠ q) :
    ws.find? (fun w => q == "" || w.wallet.path == q) = none := by
  apply List.find?_eq_none.mpr
  intro w hw
  simp [hq, h w hw]

/-! ### Claim C3 (closing the last window saves and quits exactly once) -/

/-- Claim C3: `close_window` on a registry of size one (with quit-on-last
configured, as `main` sets it) emits exactly one save-last-wallet call and
exactly one application-quit request, while closing a window of a registry
that keeps at least one other window emits neither. -/
theorem close_window_last_saves_and_quits (s : GuiState) (w : Window) (q : Bool)
    (hw : w ∈ s.windows) :
    (s.windows.length = 1 → q = true →
      (close_window s w q).2.countP Event.isSaveLastWallet = 1 ∧
      (close_window s w q).2.countP Event.isQuitRequest = 1) ∧
    (2 ≤ s.windows.length →
      (close_window s w q).2.countP Event.isSaveLastWallet = 0 ∧
      (close_window s w q).2.countP Event.isQuitRequest = 0) := by
  constructor
  · intro hlen hq
    subst hq
    obtain ⟨a, ha⟩ := List.length_eq_one.mp hlen
    rw [ha] at hw
    simp at hw
    subst hw
    simp [close_window, ha, Event.isSaveLastWallet, Event.isQuitRequest,
      List.countP_cons]
  · intro hlen
    have hne : s.windows.erase w ≠ [] := by
      have hlen2 := List.length_erase_of_mem hw
      intro hnil
      rw [hnil] at hlen2
      simp at hlen2
      omega
    simp [close_window, hne, Event.isSaveLastWallet, Event.isQuitRequest,
      List.countP_cons]

/-- Witness for C3: closing the only window of a one-window registry. -/
theorem close_window_last_saves_and_quits_witness :
    (close_window sW ⟨0, ⟨"/w1", false⟩⟩ true).2.countP Event.isSaveLastWallet = 1 ∧
    (close_window sW ⟨0, ⟨"/w1", false⟩⟩ true).2.countP Event.isQuitRequest = 1 :=
  (close_window_last_saves_and_quits sW ⟨0, ⟨"/w1", false⟩⟩ true (by decide)).1
    (by decide) rfl

/-! ### Claim C8 (aborted network bootstrap aborts `main`) -/

/-- Claim C8: when `init_network` is cancelled by the user (`UserCancelled`
or `GoBack`) or raises anything else, `main` returns with the housekeeping
timer not started, the event loop not entered, the SIGINT handler not
installed, the window registry untouched, and no side effects. -/
theorem main_aborts_on_init_network_failure (hasNetwork autoConnectIsSet : Bool)
    (wizardNet : InitNetworkResult) (env : Env) (s : GuiState)
    (h : init_network hasNetwork autoConnectIsSet wizardNet ≠ InitNetworkResult.ok) :
    main hasNetwork autoConnectIsSet wizardNet env s = ⟨false, false, false, s, []⟩ := by
  unfold main
  cases hi : init_network hasNetwork autoConnectIsSet wizardNet with
  | ok => exact absurd hi h
  | userCancelled => rfl
  | goBack => rfl
  | raised m => rfl

/-- Witness for C8: a user-cancelled network wizard aborts `main`. -/
theorem main_aborts_on_init_network_failure_witness :
    main true false InitNetworkResult.userCancelled envW s0 = ⟨false, false, false, s0, []⟩ :=
  main_aborts_on_init_network_failure true false InitNetworkResult.userCancelled envW s0
    (by decide)

/-! ### Claim C10 (empty path with open windows focuses the first window) -/

/-- Claim C10: `start_new_window` with an empty path and a non-empty
registry returns the first window of the registry brought to the
foreground: the registry is unchanged, the last-used-wallet configuration
is not consulted, no wallet is loaded, and no window is created. -/
theorem start_new_window_empty_path_focuses_first (env : Env) (w : Window)
    (rest : List Window) (nid : Nat) (uri : Option String) :
    (start_new_window env ⟨w :: rest, nid⟩ "" uri).1 = ⟨w :: rest, nid⟩ ∧
    (start_new_window env ⟨w :: rest, nid⟩ "" uri).2.1 = some w ∧
    Event.openedLastWallet ∉ (start_new_window env ⟨w :: rest, nid⟩ "" uri).2.2 ∧
    (∀ p, Event.loadWalletCalled p ∉ (start_new_window env ⟨w :: rest, nid⟩ "" uri).2.2) ∧
    (∀ i, Event.windowCreated i ∉ (start_new_window env ⟨w :: rest, nid⟩ "" uri).2.2) ∧
    Event.broughtToTop w.wid ∈ (start_new_window env ⟨w :: rest, nid⟩ "" uri).2.2 := by
  have hs : start_new_window env ⟨w :: rest, nid⟩ "" uri =
      (⟨w :: rest, nid⟩, some w, [Event.broughtToTop w.wid] ++ finishEvents w uri) := by
    rw [start_new_window_empty_path env ⟨w :: rest, nid⟩ uri (by simp)]
    simp [open_path, List.find?]
  rw [hs]
  cases uri <;> simp [finishEvents]

/-- Witness for C10 at a concrete one-window registry. -/
theorem start_new_window_empty_path_focuses_first_witness :
    (start_new_window envW sW "" none).1 = sW ∧
    (start_new_window envW sW "" none).2.1 = some ⟨0, ⟨"/w1", false⟩⟩ ∧
    Event.broughtToTop 0 ∈ (start_new_window envW sW "" none).2.2 := by
  have h := start_new_window_empty_path_focuses_first envW ⟨0, ⟨"/w1", false⟩⟩ [] 1 none
  exact ⟨h.1, h.2.1, h.2.2.2.2.2⟩

/-! ### Claim C2 (wallet load failure: error dialog vs wizard fallback) -/

/-- Claim C2: when loading the wallet at the standardized path `q` raises
and no open window matches `q`: with at least one window open, an error
dialog is shown and neither a window nor a wizard results and the registry
is untouched; with no windows open, the failure is swallowed, the freshly
generated non-colliding wallet path is substituted and the setup wizard is
invoked on it, and no error dialog is shown for the load failure (none at
all unless the wizard itself later raises). -/
theorem start_new_window_load_failure_handling (env : Env) (s : GuiState)
    (p q m : String) (uri : Option String)
    (hp : p ≠ "") (hq : env.standardize p = q) (hq' : q ≠ "")
    (hload : env.loadWallet q = LoadResult.raised m)
    (hnomatch : ∀ w ∈ s.windows, w.wallet.path ≠ q) :
    (s.windows ≠ [] →
      (start_new_window env s p uri).1 = s ∧
      (start_new_window env s p uri).2.1 = none ∧
      (start_new_window env s p uri).2.2.countP Event.isErrorDialog = 1 ∧
      (start_new_window env s p uri).2.2.countP Event.isWizardInvoked = 0 ∧
      (start_new_window env s p uri).2.2.countP Event.isWindowCreated = 0) ∧
    (s.windows = [] →
      Event.wizardInvoked env.newWalletPath ∈ (start_new_window env s p uri).2.2 ∧
      ((∀ m', env.wizard env.newWalletPath ≠ WizardResult.raised m') →
        (start_new_window env s p uri).2.2.countP Event.isErrorDialog = 0)) := by
  have hfind := find?_none_of_no_match q hq' s.windows hnomatch
  rw [start_new_window_nonempty_path env s p uri hp, hq]
  constructor
  · intro hne
    have hs : open_path env s q uri =
        (s, none, [Event.loadWalletCalled q,
                   Event.errorDialogShown ("Cannot load wallet:" ++ m)]) := by
      simp [open_path, hfind, hload, hne]
    rw [hs]
    simp [Event.isErrorDialog, Event.isWizardInvoked, Event.isWindowCreated,
      List.countP_cons]
  · intro hnil
    have hs : open_path env s q uri =
        ((runWizardFlow env s env.newWalletPath uri).1,
         (runWizardFlow env s env.newWalletPath uri).2.1,
         [Event.loadWalletCalled q] ++ (runWizardFlow env s env.newWalletPath uri).2.2) := by
      simp [open_path, hfind, hload, hnil]
    rw [hs]
    constructor
    · simp [wizardInvoked_mem_runWizardFlow]
    · intro hnr
      simp [List.countP_cons, Event.isErrorDialog,
        runWizardFlow_no_dialog env s env.newWalletPath uri hnr]

/-- Witness for C2: a raising load with one window open shows one dialog;
the same load from an empty registry runs the wizard at the fresh path. -/
theorem start_new_window_load_failure_handling_witness :
    ((start_new_window envBad sW "/bad" none).2.2.countP Event.isErrorDialog = 1 ∧
      (start_new_window envBad sW "/bad" none).2.2.countP Event.isWizardInvoked = 0) ∧
    (Event.wizardInvoked "/fresh" ∈ (start_new_window envBad s0 "/bad" none).2.2 ∧
      (start_new_window envBad s0 "/bad" none).2.2.countP Event.isErrorDialog = 0) := by
  have h1 := start_new_window_load_failure_handling envBad sW "/bad" "/bad" "corrupt" none
    (by decide) rfl (by decide) rfl (by decide)
  have h2 := start_new_window_load_failure_handling envBad s0 "/bad" "/bad" "corrupt" none
    (by decide) rfl (by decide) rfl (by decide)
  refine ⟨⟨(h1.1 (by decide)).2.2.1, (h1.1 (by decide)).2.2.2.1⟩,
    (h2.2 rfl).1, (h2.2 rfl).2 ?_⟩
  intro m'
  simp [envBad]

/-! ### Claim C1 (at most one window per wallet path) -/

/-- Claim C1: for a call whose standardized path is the non-empty `q`, if
a window for `q` is already open then `start_new_window` leaves the
registry untouched and returns an open window for `q` brought to the
foreground; and in every case a call for `q` preserves the invariant that
at most one window for `q` is in the registry, so along any sequence of
calls with the same standardized path at most one window for that path
ever exists. -/
theorem start_new_window_at_most_one_window_per_path (env : Env) (s : GuiState)
    (p q : String) (uri : Option String)
    (hp : p ≠ "") (hq : env.standardize p = q) (hq' : q ≠ "") :
    ((∃ w ∈ s.windows, w.wallet.path = q) →
      (start_new_window env s p uri).1 = s ∧
      ∃ w', (start_new_window env s p uri).2.1 = some w' ∧ w' ∈ s.windows ∧
        w'.wallet.path = q ∧
        Event.broughtToTop w'.wid ∈ (start_new_window env s p uri).2.2) ∧
    (countPath q s.windows ≤ 1 →
      countPath q (start_new_window env s p uri).1.windows ≤ 1) := by
  rw [start_new_window_nonempty_path env s p uri hp, hq]
  dsimp only
  constructor
  · rintro ⟨w, hw, hpath⟩
    have hsome : (s.windows.find? (fun w => q == "" || w.wallet.path == q)).isSome := by
      rw [List.find?_isSome]
      exact ⟨w, hw, by simp [hpath]⟩
    obtain ⟨w', hfind⟩ := Option.isSome_iff_exists.mp hsome
    have hmem := List.mem_of_find?_eq_some hfind
    have hpred := List.find?_some hfind
    simp [hq'] at hpred
    have hs : open_path env s q uri =
        (s, some w', [Event.broughtToTop w'.wid] ++ finishEvents w' uri) := by
      simp [open_path, hfind]
    rw [hs]
    exact ⟨rfl, w', rfl, hmem, hpred, by cases uri <;> simp [finishEvents]⟩
  · intro hcount
    cases hfind : s.windows.find? (fun w => q == "" || w.wallet.path == q) with
    | some w' =>
      have hs : (open_path env s q uri).1 = s := by simp [open_path, hfind]
      rw [hs]
      exact hcount
    | none =>
      have hzero : List.countP (fun w => w.wallet.path == q) s.windows = 0 := by
        apply List.countP_eq_zero.mpr
        intro w hw
        have hnm := List.find?_eq_none.mp hfind w hw
        simp [hq'] at hnm
        simp [hnm]
      rcases open_path_windows_shape env s q uri with h | ⟨win, h, _⟩
      · rw [h]
        exact hcount
      · rw [h]
        rw [countPath, List.countP_append]
        have h2 : List.countP (fun w => w.wallet.path == q) [win] ≤ 1 := by
          cases hpw : win.wallet.path == q <;> simp [List.countP_cons, hpw]
        omega

/-- Witness for C1: re-opening the already-open `/w1` leaves the one-window
registry unchanged and returns its window. -/
theorem start_new_window_at_most_one_window_per_path_witness :
    (start_new_window envW sW "/w1" none).1 = sW ∧
    countPath "/w1" (start_new_window envW sW "/w1" none).1.windows ≤ 1 := by
  have h := start_new_window_at_most_one_window_per_path envW sW "/w1" "/w1" none
    (by decide) rfl (by decide)
  exact ⟨(h.1 ⟨⟨0, ⟨"/w1", false⟩⟩, by decide, rfl⟩).1, h.2 (by decide)⟩

/-! ### Claim C4 (hardware wallets are rejected) -/

/-- If a load event for path `pl` occurred and the daemon's wallet at `pl`
is hardware-backed, then `open_path` attempted the daemon-side stop and
showed the hardware warning. -/
theorem open_path_hw_load (env : Env) (s : GuiState) (path : String) (uri : Option String)
    (pl : String) (w : Wallet)
    (hmem : Event.loadWalletCalled pl ∈ (open_path env s path uri).2.2)
    (hl : env.loadWallet pl = LoadResult.loaded w)
    (hhw : w.hasHardwareKeystore = true) :
    Event.hwWarningShown w.path ∈ (open_path env s path uri).2.2 ∧
    Event.stopWalletAttempted w.path ∈ (open_path env s path uri).2.2 := by
  cases hfind : s.windows.find? (fun w => path == "" || w.wallet.path == path) with
  | some w0 =>
    cases uri <;> simp [open_path, hfind, finishEvents] at hmem
  | none =>
    cases hload : env.loadWallet path with
    | loaded w0 =>
      cases hhw0 : w0.hasHardwareKeystore with
      | true =>
        by_cases hnil : s.windows = []
        · have hpl : pl = path := by
            simp [open_path, hfind, hload, hhw0, hnil, slpWarnEvents] at hmem
            rcases hmem with h | h
            · exact h
            · exact absurd h (loadCalled_not_mem_runWizardFlow env s env.newWalletPath pl uri)
          subst hpl
          rw [hl] at hload
          injection hload with h'
          subst h'
          constructor <;> simp [open_path, hfind, hl, hhw0, hnil, slpWarnEvents]
        · have hpl : pl = path := by
            simp [open_path, hfind, hload, hhw0, hnil, slpWarnEvents] at hmem
            exact hmem
          subst hpl
          rw [hl] at hload
          injection hload with h'
          subst h'
          constructor <;> simp [open_path, hfind, hl, hhw0, hnil, slpWarnEvents]
      | false =>
        have hpl : pl = path := by
          cases uri <;>
            simp [open_path, hfind, hload, hhw0, create_window_for_wallet,
              finishEvents] at hmem <;>
            exact hmem
        subst hpl
        rw [hl] at hload
        injection hload with h'
        rw [← h'] at hhw0
        rw [hhw] at hhw0
        exact Bool.noConfusion hhw0
    | noWallet =>
      have hpl : pl = path := by
        simp [open_path, hfind, hload] at hmem
        rcases hmem with h | h
        · exact h
        · exact absurd h (loadCalled_not_mem_runWizardFlow env s path pl uri)
      subst hpl
      rw [hl] at hload
      exact LoadResult.noConfusion hload
    | raised m =>
      have hpl : pl = path := by
        by_cases hnil : s.windows = []
        · simp [open_path, hfind, hload, hnil] at hmem
          rcases hmem with h | h
          · exact h
          · exact absurd h (loadCalled_not_mem_runWizardFlow env s env.newWalletPath pl uri)
        · simp [open_path, hfind, hload, hnil] at hmem
          exact hmem
      subst hpl
      rw [hl] at hload
      exact LoadResult.noConfusion hload

/-- If a wizard-invocation event for path `pw` occurred and the wizard at
`pw` produces a hardware wallet, then `open_path` attempted the daemon-side
stop and showed the hardware warning. -/
theorem open_path_hw_wizard (env : Env) (s : GuiState) (path : String) (uri : Option String)
    (pw : String) (w : Wallet)
    (hmem : Event.wizardInvoked pw ∈ (open_path env s path uri).2.2)
    (hwz : env.wizard pw = WizardResult.created w)
    (hhw : w.hasHardwareKeystore = true) :
    Event.hwWarningShown w.path ∈ (open_path env s path uri).2.2 ∧
    Event.stopWalletAttempted w.path ∈ (open_path env s path uri).2.2 := by
  cases hfind : s.windows.find? (fun w => path == "" || w.wallet.path == path) with
  | some w0 =>
    cases uri <;> simp [open_path, hfind, finishEvents] at hmem
  | none =>
    cases hload : env.loadWallet path with
    | loaded w0 =>
      cases hhw0 : w0.hasHardwareKeystore with
      | true =>
        by_cases hnil : s.windows = []
        · have hpw : pw = env.newWalletPath := by
            simp [open_path, hfind, hload, hhw0, hnil, slpWarnEvents] at hmem
            exact wizardInvoked_mem_runWizardFlow_eq env s env.newWalletPath pw uri hmem
          subst hpw
          have hflow := runWizardFlow_hw env s env.newWalletPath uri w hwz hhw
          constructor <;>
            simp [open_path, hfind, hload, hhw0, hnil, hflow, slpWarnEvents]
        · simp [open_path, hfind, hload, hhw0, hnil, slpWarnEvents] at hmem
      | false =>
        cases uri <;>
          simp [open_path, hfind, hload, hhw0, create_window_for_wallet,
            finishEvents] at hmem
    | noWallet =>
      have hpw : pw = path := by
        simp [open_path, hfind, hload] at hmem
        exact wizardInvoked_mem_runWizardFlow_eq env s path pw uri hmem
      subst hpw
      have hflow := runWizardFlow_hw env s pw uri w hwz hhw
      constructor <;> simp [open_path, hfind, hload, hflow, slpWarnEvents]
    | raised m =>
      by_cases hnil : s.windows = []
      · have hpw : pw = env.newWalletPath := by
          simp [open_path, hfind, hload, hnil] at hmem
          exact wizardInvoked_mem_runWizardFlow_eq env s env.newWalletPath pw uri hmem
        subst hpw
        have hflow := runWizardFlow_hw env s env.newWalletPath uri w hwz hhw
        constructor <;> simp [open_path, hfind, hload, hnil, hflow, slpWarnEvents]
      · simp [open_path, hfind, hload, hnil] at hmem

/-- Claim C4: every window `start_new_window` adds to the registry holds a
software wallet — no window is ever created for a hardware wallet — and
whenever the wallet obtained (from the daemon at the loaded path, or from
the wizard at the invoked path) is hardware-backed, the daemon-side stop
is attempted and the user-facing warning is shown.  The stop outcome
(`env.stopWalletOk`) is never consulted, so a failing stop is tolerated. -/
theorem start_new_window_hardware_wallet_rejected (env : Env) (s : GuiState)
    (p : String) (uri : Option String) :
    (∀ win ∈ (start_new_window env s p uri).1.windows,
      win ∈ s.windows ∨ win.wallet.hasHardwareKeystore = false) ∧
    (∀ pl w, Event.loadWalletCalled pl ∈ (start_new_window env s p uri).2.2 →
      env.loadWallet pl = LoadResult.loaded w → w.hasHardwareKeystore = true →
      Event.hwWarningShown w.path ∈ (start_new_window env s p uri).2.2 ∧
      Event.stopWalletAttempted w.path ∈ (start_new_window env s p uri).2.2) ∧
    (∀ pw w, Event.wizardInvoked pw ∈ (start_new_window env s p uri).2.2 →
      env.wizard pw = WizardResult.created w → w.hasHardwareKeystore = true →
      Event.hwWarningShown w.path ∈ (start_new_window env s p uri).2.2 ∧
      Event.stopWalletAttempted w.path ∈ (start_new_window env s p uri).2.2) := by
  obtain ⟨path, extra, hextra, heq⟩ := start_new_window_eq env s p uri
  rw [heq]
  dsimp only
  refine ⟨?_, ?_, ?_⟩
  · intro win hwin
    rcases open_path_windows_shape env s path uri with h | ⟨win0, h, hw0⟩
    · rw [h] at hwin
      exact Or.inl hwin
    · rw [h] at hwin
      rcases List.mem_append.mp hwin with h1 | h1
      · exact Or.inl h1
      · simp at h1
        subst h1
        exact Or.inr hw0
  · intro pl w hmem hl hhw
    have hmem' : Event.loadWalletCalled pl ∈ (open_path env s path uri).2.2 := by
      rcases hextra with he | he <;> subst he <;> simpa using hmem
    have h2 := open_path_hw_load env s path uri pl w hmem' hl hhw
    exact ⟨List.mem_append_right extra h2.1, List.mem_append_right extra h2.2⟩
  · intro pw w hmem hwz hhw
    have hmem' : Event.wizardInvoked pw ∈ (open_path env s path uri).2.2 := by
      rcases hextra with he | he <;> subst he <;> simpa using hmem
    have h2 := open_path_hw_wizard env s path uri pw w hmem' hwz hhw
    exact ⟨List.mem_append_right extra h2.1, List.mem_append_right extra h2.2⟩

/-- Witness for C4: a daemon handing out a hardware wallet for `/hw` leads
to the warning and the stop attempt. -/
theorem start_new_window_hardware_wallet_rejected_witness :
    Event.hwWarningShown "/hw" ∈ (start_new_window envHW s0 "/hw" none).2.2 ∧
    Event.stopWalletAttempted "/hw" ∈ (start_new_window envHW s0 "/hw" none).2.2 :=
  (start_new_window_hardware_wallet_rejected envHW s0 "/hw" none).2.1 "/hw" ⟨"/hw", true⟩
    (by decide) rfl rfl

end ECGui
